import Mathlib

/-
Verification development for the AuthenX evidence-intake and
status-reconciliation pipeline (src/components/UserDashboard.tsx and
src/components/BankAdminDashboard.tsx).

The repository contains two upload-pipeline variants of UserDashboard:
the store-then-verify variant (first copy of the file) and the
verify-then-store variant (second copy).  Definitions below are shallow
embeddings of the TypeScript functions; where the two variants agree
(checklist toggle, image deletion, status reconciler guard) a single
definition carries both, and where they differ the verify-then-store
definitions carry a `V2` suffix.

External effects are modelled explicitly: the authenticity verifier's
transport outcome is a parameter (`TransportOutcome`), the reverse
geocoder is a parameter function (it never fails per
`getAddressFromCoords`, which falls back to "Unknown Location"), and
storage uploads/removals are modelled as list updates on the asset's
stored object paths.

Data flow of the status reconciler: in the source,
`checkAndSetPendingStatus` awaits `fetchRequiredDocuments` and
`fetchAssetImages`, but those calls only schedule React state updates
for a future render — the `requiredDocs`/`assetImages` bindings the
guard then reads are the closure's values from the handler's render,
i.e. the pre-mutation snapshot.  The reconciler is therefore modelled
with the snapshot as an explicit argument, and each operation passes the
state as of its own start (the pre-mutation durable state, to which the
closure bindings are equal in the sequential single-actor session), not
the state it has just mutated.
-/

namespace AuthenX

/-- Status values of the `assets` table: "non-verified" (initial),
"pending", "authenticated", as in the `Asset` interface of
UserDashboard.tsx. -/
inductive Status where
  | nonVerified
  | pending
  | authenticated
deriving DecidableEq, Repr

/-- Row of the `required_documents` table as selected by
`fetchRequiredDocuments` (id, document_name, is_uploaded, uploaded_at).
Timestamps are modelled as natural numbers. -/
structure RequiredDoc where
  id : Nat
  document_name : String
  is_uploaded : Bool
  uploaded_at : Option Nat
deriving DecidableEq, Repr

/-- The per-asset fields of the `assets` table that the pipeline reads or
writes: status, image_url, latitude, longitude, location_address,
verified_at (coordinates as rationals, timestamps as naturals). -/
structure AssetRecord where
  status : Status
  image_url : Option String
  latitude : Option ℚ
  longitude : Option ℚ
  location_address : Option String
  verified_at : Option Nat
deriving DecidableEq, Repr

/-- The durable state relevant to one asset: its `assets` row, its
`required_documents` rows, and the object paths stored under its prefix
in the `asset-images` storage bucket. -/
structure DBState where
  asset : AssetRecord
  docs : List RequiredDoc
  images : List String
deriving DecidableEq, Repr

/-- Guard of `checkAndSetPendingStatus`: in the store-then-verify variant
`allUploadedFromState = docsFromState.length > 0 ? docsFromState.every((d) => d.is_uploaded) : false`,
in the verify-then-store variant
`allDocsUploaded = requiredDocs.length > 0 && requiredDocs.every((d) => d.is_uploaded)`;
both are the same boolean. -/
def allUploadedFromState (docs : List RequiredDoc) : Bool :=
  if 0 < docs.length then docs.all (fun d => d.is_uploaded) else false

/-- Guard of `checkAndSetPendingStatus`:
`enoughImagesFromState = assetImages.length >= docsFromState.length`
(identical in both variants). -/
def enoughImagesFromState (docs : List RequiredDoc) (images : List String) : Bool :=
  decide (docs.length ≤ images.length)

/-- Shallow embedding of `checkAndSetPendingStatus` (both variants have
the same durable effect).  The awaited re-fetches only update React
state for a future render, so the guard reads the `requiredDocs` and
`assetImages` closure bindings captured at the handler's render — the
pre-mutation snapshot, the cached in-memory-copy evaluation that spec
section 9 flags as a correctness bug.  The snapshot is an explicit
argument here, supplied by each caller as the state at the handler's
start.  If all snapshot documents are uploaded (and there is at least
one) and the snapshot image count is at least the snapshot document
count, the asset's status is updated to "pending"; otherwise nothing is
written.  There is no branch that ever writes any other status. -/
def checkAndSetPendingStatus (snapDocs : List RequiredDoc) (snapImages : List String)
    (s : DBState) : DBState :=
  if allUploadedFromState snapDocs && enoughImagesFromState snapDocs snapImages then
    { s with asset := { s.asset with status := Status.pending } }
  else
    s

/-- Effect of the `supabase.from("required_documents").update(...)` call in
`handleDocumentCheck`: the row with the given id gets
`is_uploaded = newValue` and `uploaded_at = newValue ? now : null`. -/
def updateDoc (docs : List RequiredDoc) (docId : Nat) (newValue : Bool) (now : Nat) :
    List RequiredDoc :=
  docs.map fun d =>
    if d.id = docId then
      { d with is_uploaded := newValue,
               uploaded_at := if newValue then some now else none }
    else d

/-- Shallow embedding of `handleDocumentCheck` (both variants): update the
checklist row in the durable store, then run `checkAndSetPendingStatus`,
whose guard sees the pre-toggle closure snapshot — the toggled row's new
value is not visible to it. -/
def handleDocumentCheck (s : DBState) (docId : Nat) (newValue : Bool) (now : Nat) : DBState :=
  checkAndSetPendingStatus s.docs s.images
    { s with docs := updateDoc s.docs docId newValue now }

/-- Shallow embedding of `handleDeleteImage` (both variants): remove the
stored object, then run `checkAndSetPendingStatus`, whose guard sees the
pre-delete closure snapshot and still counts the deleted image.  The
extraction of the storage path from the public URL
(`split("/asset-images/")`, `split("?")[0]`) is elided; the operation
receives the storage path. -/
def handleDeleteImage (s : DBState) (path : String) : DBState :=
  checkAndSetPendingStatus s.docs s.images { s with images := s.images.erase path }

/-- The Grant / Non-Grant action `handleStatusUpdate` of
BankAdminDashboard.tsx: `supabase.from("assets").update({ status: newStatus })`
— the update payload contains only the status field. -/
def handleStatusUpdate (s : DBState) (newStatus : Status) : DBState :=
  { s with asset := { s.asset with status := newStatus } }

/-- A verifier response body.  Each field is optional, standing for a JSON
body that may or may not carry it (canonical names `is_real`,
`authenticity_score`, `reason`, `message`; alternate names `valid`,
`score`). -/
structure VerifierJson where
  is_real : Option Bool
  valid : Option Bool
  authenticity_score : Option ℚ
  score : Option ℚ
  reason : Option String
  message : Option String
deriving DecidableEq, Repr

/-- Outcome of the `fetch` to the verifier: either a transport-level fault
(the promise rejects — timeout, DNS, connection reset) or a response with
an `ok` flag and a JSON body. -/
inductive TransportOutcome where
  | fault
  | response (ok : Bool) (body : VerifierJson)

/-- The ephemeral verification result `{ is_real, authenticity_score, reason }`. -/
structure VerificationResult where
  is_real : Bool
  authenticity_score : ℚ
  reason : String
deriving DecidableEq, Repr

/-- JavaScript `a || b` restricted to strings, where the empty string is
falsy. -/
def jsStringOr (a b : String) : String :=
  if a = "" then b else a

/-- Tolerant field decoding of `verifyImage` (store-then-verify variant):
`is_real = typeof json.is_real === "boolean" ? json.is_real : !!json.valid`,
`score = typeof json.authenticity_score === "number" ? json.authenticity_score : json.score ?? 0`,
`reason = json.reason || json.message || ""`. -/
def decodeVerifierJson (j : VerifierJson) : VerificationResult :=
  { is_real := match j.is_real with
      | some b => b
      | none => j.valid.getD false
    authenticity_score := match j.authenticity_score with
      | some q => q
      | none => j.score.getD 0
    reason := jsStringOr (j.reason.getD "") (j.message.getD "") }

/-- Shallow embedding of `verifyImage` (store-then-verify variant): a
thrown transport fault yields `{ is_real: false, authenticity_score: 0,
reason: "network-error" }`; a non-OK response yields `{ is_real: false,
authenticity_score: 0, reason: "verify-failed" }`; an OK response is
decoded tolerantly. -/
def verifyImage (t : TransportOutcome) : VerificationResult :=
  match t with
  | TransportOutcome.fault =>
      { is_real := false, authenticity_score := 0, reason := "network-error" }
  | TransportOutcome.response ok body =>
      if ok then decodeVerifierJson body
      else { is_real := false, authenticity_score := 0, reason := "verify-failed" }

/-- Response decoding of the verify-then-store variant's inline
verification: `const is_real = verifyJson.is_real === true` — strict
boolean comparison against the canonical field only. -/
def isRealV2 (j : VerifierJson) : Bool :=
  decide (j.is_real = some true)

/-- Response decoding of the verify-then-store variant:
`const score = verifyJson.authenticity_score ?? 0`. -/
def scoreV2 (j : VerifierJson) : ℚ :=
  j.authenticity_score.getD 0

/-- Response decoding of the verify-then-store variant:
`const reason = verifyJson.message ?? "Rejected"`. -/
def reasonV2 (j : VerifierJson) : String :=
  j.message.getD "Rejected"

/-- Public URL of a stored object, `getPublicUrl(filePath)`. -/
def publicUrlOf (filePath : String) : String :=
  "/storage/v1/object/public/asset-images/" ++ filePath

/-- Address written by an accepted upload:
`lat != null && lon != null ? await getAddressFromCoords(lat, lon) : null`,
where the geocoder `geo` never fails (it falls back to
"Unknown Location"). -/
def resolvedAddress (geo : ℚ → ℚ → String) (lat lon : Option ℚ) : Option String :=
  match lat, lon with
  | some la, some lo => some (geo la lo)
  | _, _ => none

/-- Shallow embedding of `uploadImageToSupabase` (store-then-verify
variant): store the object, call `verifyImage`; if rejected, remove the
just-stored object and change nothing else; if accepted, update the four
asset preview fields together, then run `checkAndSetPendingStatus`,
whose guard sees the pre-upload closure snapshot and does not count the
new image. -/
def uploadImageToSupabase (s : DBState) (filePath : String) (lat lon : Option ℚ)
    (t : TransportOutcome) (geo : ℚ → ℚ → String) : DBState :=
  let s1 : DBState := { s with images := s.images ++ [filePath] }
  let verification := verifyImage t
  if verification.is_real = false then
    { s1 with images := s1.images.erase filePath }
  else
    let s2 : DBState := { s1 with asset := { s1.asset with
        image_url := some (publicUrlOf filePath),
        latitude := lat,
        longitude := lon,
        location_address := resolvedAddress geo lat lon } }
    checkAndSetPendingStatus s.docs s.images s2

/-- Shallow embedding of `uploadImageToSupabase` (verify-then-store
variant): verify first; on a transport fault the surrounding catch
aborts with no durable change, on a non-OK response the function returns
with no durable change, on a rejection (`is_real !== true`) it returns
with no durable change; only on acceptance does it store the object,
update the four asset preview fields together and run
`checkAndSetPendingStatus`, whose guard reads the same pre-upload
closure snapshot as in the other variant. -/
def uploadImageToSupabaseV2 (s : DBState) (filePath : String) (lat lon : Option ℚ)
    (t : TransportOutcome) (geo : ℚ → ℚ → String) : DBState :=
  match t with
  | TransportOutcome.fault => s
  | TransportOutcome.response ok body =>
      if ok = false then s
      else if isRealV2 body = false then s
      else
        let s1 : DBState := { s with images := s.images ++ [filePath] }
        let s2 : DBState := { s1 with asset := { s1.asset with
            image_url := some (publicUrlOf filePath),
            latitude := lat,
            longitude := lon,
            location_address := resolvedAddress geo lat lon } }
        checkAndSetPendingStatus s.docs s.images s2

/-- JavaScript `Math.round` on the (nonnegative) values fed to it by
`degToRationalArray`: round half up, i.e. the floor of `q + 1/2`. -/
def jsRound (q : ℚ) : ℤ :=
  ⌊q + 1 / 2⌋

/-- A GPS coordinate as the three EXIF rational pairs
(degrees, minutes, seconds), each a numerator/denominator pair. -/
structure GpsTriple where
  deg : ℤ × ℤ
  min : ℤ × ℤ
  sec : ℤ × ℤ
deriving DecidableEq, Repr

/-- Shallow embedding of `degToRationalArray`:
`d = Math.floor(Math.abs(deg))`, `mFloat = (Math.abs(deg) - d) * 60`,
`m = Math.floor(mFloat)`, `s = Math.round((mFloat - m) * 60 * 100)`,
returning `[[d, 1], [m, 1], [s, 100]]`. -/
def degToRationalArray (deg : ℚ) : GpsTriple :=
  let d : ℤ := ⌊|deg|⌋
  let mFloat : ℚ := (|deg| - d) * 60
  let m : ℤ := ⌊mFloat⌋
  let s : ℤ := jsRound ((mFloat - m) * 60 * 100)
  { deg := (d, 1), min := (m, 1), sec := (s, 100) }

/-- Hemisphere reference for latitude in `getGpsIfd`:
`lat >= 0 ? "N" : "S"`. -/
def latRefOf (lat : ℚ) : String :=
  if 0 ≤ lat then "N" else "S"

/-- Hemisphere reference for longitude in `getGpsIfd`:
`lon >= 0 ? "E" : "W"`. -/
def lonRefOf (lon : ℚ) : String :=
  if 0 ≤ lon then "E" else "W"

/-- The EXIF GPS extraction of `handleGalleryUpload` (and `handleDrop`)
for one coordinate: `arr[0][0] + arr[1][0] / 60 + arr[2][0] / 3600` —
it reads only the numerators of the three rational pairs and ignores the
denominators. -/
def galleryExtractMagnitude (a : GpsTriple) : ℚ :=
  (a.deg.1 : ℚ) + (a.min.1 : ℚ) / 60 + (a.sec.1 : ℚ) / 3600

/-- The EXIF GPS latitude extraction of `handleGalleryUpload`:
`lat = latDeg * (latRef === "S" ? -1 : 1)`. -/
def galleryExtractLat (a : GpsTriple) (ref : String) : ℚ :=
  galleryExtractMagnitude a * (if ref = "S" then -1 else 1)

/-- Modelled from the spec: the inverse operation described in §4.1 of the
specification, which reads each rational pair as the rational it denotes
(numerator over denominator) and reconstructs
`degrees + minutes/60 + seconds/3600`.  This is the comparison point for
the geotag round-trip claim; the repository's own extraction is
`galleryExtractMagnitude`. -/
def specRationalToDeg (a : GpsTriple) : ℚ :=
  (a.deg.1 : ℚ) / (a.deg.2 : ℚ) + (a.min.1 : ℚ) / (a.min.2 : ℚ) / 60
    + (a.sec.1 : ℚ) / (a.sec.2 : ℚ) / 3600

/-- State machine of the reviewer decision flow in BankAdminDashboard.tsx:
the durable asset status together with the dialog's fetched snapshot of
it (`assetDetails.status`, `none` when no dialog is open). -/
structure ReviewerState where
  db : Status
  dialog : Option Status
deriving DecidableEq, Repr

/-- Steps of the reviewer decision flow: `handleUserClick` fetches the
asset and opens the dialog; the Grant and Non-Grant buttons are rendered
only when `assetDetails.status === "pending"` and call
`handleStatusUpdate` with "authenticated" or "non-verified", which also
closes the dialog (`setSelectedUser(null)`); the dialog can always be
closed. -/
inductive ReviewerStep : ReviewerState → ReviewerState → Prop where
  | openDialog (db : Status) (dialog : Option Status) :
      ReviewerStep ⟨db, dialog⟩ ⟨db, some db⟩
  | grant (db : Status) :
      ReviewerStep ⟨db, some Status.pending⟩ ⟨Status.authenticated, none⟩
  | reject (db : Status) :
      ReviewerStep ⟨db, some Status.pending⟩ ⟨Status.nonVerified, none⟩
  | closeDialog (db : Status) (dialog : Option Status) :
      ReviewerStep ⟨db, dialog⟩ ⟨db, none⟩

/-- Reachable states of the reviewer flow: it starts with no dialog open
(over an asset of any status) and follows `ReviewerStep`.  The flow is
single-actor: nothing else mutates the asset while the dialog is open
(the spec's non-goal excludes concurrent reviewers). -/
inductive ReviewerReachable : ReviewerState → Prop where
  | init (db : Status) : ReviewerReachable ⟨db, none⟩
  | step {s s' : ReviewerState} :
      ReviewerReachable s → ReviewerStep s s' → ReviewerReachable s'

/-- Modelled from the spec's words for the status claim: "every required
document for that asset has is_uploaded = true and the count of stored
evidence images is greater than or equal to the count of required
documents". -/
def specPendingCond (s : DBState) : Bool :=
  s.docs.all (fun d => d.is_uploaded) && decide (s.docs.length ≤ s.images.length)

/-- Example asset record used in concrete evaluations: a pending asset
with no preview fields set. -/
def sampleAsset : AssetRecord :=
  { status := Status.pending, image_url := none, latitude := none,
    longitude := none, location_address := none, verified_at := none }

/-- Example durable state: a pending asset with one required document
(checked) and one stored evidence image. -/
def sampleState : DBState :=
  { asset := sampleAsset,
    docs := [{ id := 0, document_name := "Aadhaar Card", is_uploaded := true,
               uploaded_at := some 1 }],
    images := ["a1/100.jpg"] }

/-- Verifier response carrying only the canonical fields, accepting. -/
def acceptJson : VerifierJson :=
  { is_real := some true, valid := none, authenticity_score := some 1,
    score := none, reason := none, message := none }

/-- Verifier response carrying only the canonical fields, rejecting with
`authenticity_score = 0.2` (Scenario D of the specification). -/
def rejectJson : VerifierJson :=
  { is_real := some false, valid := none, authenticity_score := some (1 / 5),
    score := none, reason := none, message := none }

/-- Verifier response carrying only the alternate field names `valid` and
`score`. -/
def altOnlyJson : VerifierJson :=
  { is_real := none, valid := some true, authenticity_score := none,
    score := some (9 / 10), reason := none, message := none }

/-- A 200 response body carrying only the alternate field names: `valid`
holds the realness flag and `score` the confidence. -/
def altNamedJson (b : Bool) (q : ℚ) (r m : Option String) : VerifierJson :=
  { is_real := none, valid := some b, authenticity_score := none,
    score := some q, reason := r, message := m }

/-- A 200 response body carrying the canonical field names `is_real` and
`authenticity_score` (the alternates may or may not also be present). -/
def canonNamedJson (b : Bool) (q : ℚ) (v : Option Bool) (sc : Option ℚ)
    (r m : Option String) : VerifierJson :=
  { is_real := some b, valid := v, authenticity_score := some q,
    score := sc, reason := r, message := m }

/-- A 200 response body with no canonical `is_real` and no canonical
`authenticity_score`. -/
def noCanonJson (v : Option Bool) (sc : Option ℚ) (r m : Option String) : VerifierJson :=
  { is_real := none, valid := v, authenticity_score := none,
    score := sc, reason := r, message := m }

section Lemmas

/-- Running the reconciler never touches the documents, the images, or any
asset field other than status, whatever snapshot its guard reads. -/
lemma checkAndSet_preserves (sd : List RequiredDoc) (si : List String) (s : DBState) :
    (checkAndSetPendingStatus sd si s).docs = s.docs ∧
    (checkAndSetPendingStatus sd si s).images = s.images ∧
    (checkAndSetPendingStatus sd si s).asset.image_url = s.asset.image_url ∧
    (checkAndSetPendingStatus sd si s).asset.latitude = s.asset.latitude ∧
    (checkAndSetPendingStatus sd si s).asset.longitude = s.asset.longitude ∧
    (checkAndSetPendingStatus sd si s).asset.location_address = s.asset.location_address ∧
    (checkAndSetPendingStatus sd si s).asset.verified_at = s.asset.verified_at := by
  unfold checkAndSetPendingStatus
  split <;> simp

/-- The reconciler's status write, as a conditional on the snapshot it is
given. -/
lemma checkAndSet_status (sd : List RequiredDoc) (si : List String) (s : DBState) :
    (checkAndSetPendingStatus sd si s).asset.status =
      (if allUploadedFromState sd && enoughImagesFromState sd si
       then Status.pending else s.asset.status) := by
  unfold checkAndSetPendingStatus
  split <;> simp_all

end Lemmas

/-- C9.  An asset with an empty required-document set is never advanced to
pending by the automatic evaluation, whatever the stored image count and
whatever image snapshot the guard reads: for such an asset every fetched
document snapshot is empty, and `checkAndSetPendingStatus` requires at
least one required document, leaving the state untouched otherwise. -/
theorem emptyChecklistNeverPending (a : AssetRecord) (snapImages images : List String) :
    checkAndSetPendingStatus [] snapImages { asset := a, docs := [], images := images } =
      { asset := a, docs := [], images := images } := by
  unfold checkAndSetPendingStatus allUploadedFromState
  simp

/-- C4.  The verification gate is fail-closed: a transport-level fault
yields `{ is_real := false, authenticity_score := 0, reason :=
"network-error" }`, a non-success response yields `{ is_real := false,
authenticity_score := 0, reason := "verify-failed" }`, and in the
verify-then-store pipeline a fault or non-success response leaves the
durable state untouched (nothing is stored, fail-open never occurs). -/
theorem verifyImageFailClosed :
    verifyImage TransportOutcome.fault =
      { is_real := false, authenticity_score := 0, reason := "network-error" } ∧
    (∀ j : VerifierJson, verifyImage (TransportOutcome.response false j) =
      { is_real := false, authenticity_score := 0, reason := "verify-failed" }) ∧
    (∀ (s : DBState) (p : String) (lat lon : Option ℚ) (geo : ℚ → ℚ → String)
       (j : VerifierJson),
      uploadImageToSupabaseV2 s p lat lon TransportOutcome.fault geo = s ∧
      uploadImageToSupabaseV2 s p lat lon (TransportOutcome.response false j) geo = s) := by
  refine ⟨rfl, fun j => rfl, fun s p lat lon geo j => ⟨rfl, rfl⟩⟩

/-- C3 (code evaluated at the failing input).  Deleting the only evidence
image of a pending asset with one required document leaves the image
count strictly below the document count, yet the delete operation keeps
the persisted status at pending instead of reverting it to non-verified:
`checkAndSetPendingStatus` has no downgrade branch, although the
store-then-verify variant's own comment says the pending condition "may
now be false" after a deletion. -/
theorem deleteBelowCountDoesNotRevert :
    sampleState.asset.status = Status.pending ∧
    (handleDeleteImage sampleState "a1/100.jpg").images.length <
      (handleDeleteImage sampleState "a1/100.jpg").docs.length ∧
    (handleDeleteImage sampleState "a1/100.jpg").asset.status ≠ Status.nonVerified := by
  decide

/-- C1 (counterexample).  After deleting the only evidence image of the
pending sample asset, the spec-side pending condition is false while the
persisted status is still pending (the delete's reconciler even
re-writes pending, its stale guard still counting the deleted image), so
the claimed biconditional fails on the code. -/
theorem pendingIffFailsAfterDelete :
    (handleDeleteImage sampleState "a1/100.jpg").asset.status = Status.pending ∧
    specPendingCond (handleDeleteImage sampleState "a1/100.jpg") = false := by
  decide

/-- Repeating a checklist update with the same value absorbs into the last
update. -/
lemma updateDoc_absorb (docs : List RequiredDoc) (i : Nat) (v : Bool) (t1 t2 : Nat) :
    updateDoc (updateDoc docs i v t1) i v t2 = updateDoc docs i v t2 := by
  unfold updateDoc
  rw [List.map_map]
  congr 1
  funext d
  by_cases h : d.id = i <;> simp [h]

/-- Repeating a checklist update with the same value only rewrites the
target row's timestamp. -/
lemma updateDoc_timestampOnly (docs : List RequiredDoc) (i : Nat) (v : Bool)
    (t1 t2 : Nat) :
    updateDoc (updateDoc docs i v t1) i v t2 =
      (updateDoc docs i v t1).map
        (fun d => if d.id = i then { d with uploaded_at := if v then some t2 else none }
                  else d) := by
  unfold updateDoc
  rw [List.map_map, List.map_map]
  congr 1
  funext d
  by_cases h : d.id = i <;> simp [h]

/-- After a checklist update, the target row carries exactly the written
value and timestamp. -/
lemma updateDoc_target_fields (docs : List RequiredDoc) (i : Nat) (v : Bool) (t : Nat) :
    ∀ d ∈ updateDoc docs i v t, d.id = i →
      d.is_uploaded = v ∧ d.uploaded_at = (if v then some t else none) := by
  intro d hd hid
  unfold updateDoc at hd
  rcases List.mem_map.1 hd with ⟨d0, _, rfl⟩
  by_cases h : d0.id = i
  · rw [if_pos h]
    exact ⟨rfl, rfl⟩
  · rw [if_neg h] at hid
    exact absurd hid h

/-- The documents after a toggle are the updated documents. -/
lemma handleDocumentCheck_docs (s : DBState) (i : Nat) (v : Bool) (t : Nat) :
    (handleDocumentCheck s i v t).docs = updateDoc s.docs i v t := by
  unfold handleDocumentCheck
  exact (checkAndSet_preserves _ _ _).1

/-- A toggle never touches the stored images. -/
lemma handleDocumentCheck_images (s : DBState) (i : Nat) (v : Bool) (t : Nat) :
    (handleDocumentCheck s i v t).images = s.images := by
  unfold handleDocumentCheck
  exact (checkAndSet_preserves _ _ _).2.1

/-- The status after a toggle: the guard is evaluated on the pre-toggle
snapshot, so the toggled row's new value is not seen. -/
lemma handleDocumentCheck_status (s : DBState) (i : Nat) (v : Bool) (t : Nat) :
    (handleDocumentCheck s i v t).asset.status =
      (if allUploadedFromState s.docs && enoughImagesFromState s.docs s.images
       then Status.pending else s.asset.status) := by
  unfold handleDocumentCheck
  rw [checkAndSet_status]

/-- Example durable state: a non-verified asset with one required document
(not yet checked) and one stored evidence image. -/
def sampleUnchecked : DBState :=
  { asset := { status := Status.nonVerified, image_url := none, latitude := none,
               longitude := none, location_address := none, verified_at := none },
    docs := [{ id := 0, document_name := "Aadhaar Card", is_uploaded := false,
               uploaded_at := none }],
    images := ["a1/100.jpg"] }

/-- C8 (counterexample).  Toggling the only document of `sampleUnchecked`
to true twice in succession: the first toggle leaves the status at
non-verified (its guard reads the pre-toggle snapshot, where the
document is still unchecked), while the second identical toggle writes
pending (its guard reads the post-first-toggle snapshot) — a durable
state change beyond the timestamp refresh, refuting the claimed
idempotence. -/
theorem secondToggleChangesStatus :
    (handleDocumentCheck sampleUnchecked 0 true 5).asset.status = Status.nonVerified ∧
    (handleDocumentCheck (handleDocumentCheck sampleUnchecked 0 true 5) 0 true 9).asset.status =
      Status.pending ∧
    (handleDocumentCheck (handleDocumentCheck sampleUnchecked 0 true 5) 0 true 9).asset ≠
      (handleDocumentCheck sampleUnchecked 0 true 5).asset := by
  decide

/-- C8 (amended).  Toggling the same checklist item to the same value
twice: after either toggle the target row carries the written value and
a timestamp exactly when the value is true; the second toggle leaves the
images untouched and, among the documents, rewrites only the target
row's uploaded_at; but because each toggle's reconciler evaluates its
guard on the snapshot from before that toggle, the second toggle
additionally writes status := pending exactly when the guard holds on
the post-first-toggle state, so it is not a pure timestamp refresh (see
the counterexample).  All asset fields other than status are
unchanged. -/
theorem toggleTwiceTimestampAndStaleStatus (s : DBState) (docId : Nat) (v : Bool)
    (t1 t2 : Nat) :
    (∀ d ∈ (handleDocumentCheck s docId v t1).docs, d.id = docId →
        d.is_uploaded = v ∧ d.uploaded_at = (if v then some t1 else none)) ∧
    (∀ d ∈ (handleDocumentCheck (handleDocumentCheck s docId v t1) docId v t2).docs,
        d.id = docId →
        d.is_uploaded = v ∧ d.uploaded_at = (if v then some t2 else none)) ∧
    (handleDocumentCheck (handleDocumentCheck s docId v t1) docId v t2).images =
      (handleDocumentCheck s docId v t1).images ∧
    (handleDocumentCheck (handleDocumentCheck s docId v t1) docId v t2).docs =
      (handleDocumentCheck s docId v t1).docs.map
        (fun d => if d.id = docId then { d with uploaded_at := if v then some t2 else none }
                  else d) ∧
    (handleDocumentCheck (handleDocumentCheck s docId v t1) docId v t2).asset.status =
      (if allUploadedFromState (handleDocumentCheck s docId v t1).docs &&
          enoughImagesFromState (handleDocumentCheck s docId v t1).docs
            (handleDocumentCheck s docId v t1).images
       then Status.pending else (handleDocumentCheck s docId v t1).asset.status) ∧
    (handleDocumentCheck (handleDocumentCheck s docId v t1) docId v t2).asset.image_url =
      (handleDocumentCheck s docId v t1).asset.image_url ∧
    (handleDocumentCheck (handleDocumentCheck s docId v t1) docId v t2).asset.latitude =
      (handleDocumentCheck s docId v t1).asset.latitude ∧
    (handleDocumentCheck (handleDocumentCheck s docId v t1) docId v t2).asset.longitude =
      (handleDocumentCheck s docId v t1).asset.longitude ∧
    (handleDocumentCheck (handleDocumentCheck s docId v t1) docId v t2).asset.location_address =
      (handleDocumentCheck s docId v t1).asset.location_address ∧
    (handleDocumentCheck (handleDocumentCheck s docId v t1) docId v t2).asset.verified_at =
      (handleDocumentCheck s docId v t1).asset.verified_at := by
  have hdocs1 : (handleDocumentCheck s docId v t1).docs = updateDoc s.docs docId v t1 :=
    handleDocumentCheck_docs s docId v t1
  have hdocs2 : (handleDocumentCheck (handleDocumentCheck s docId v t1) docId v t2).docs =
      updateDoc (updateDoc s.docs docId v t1) docId v t2 := by
    rw [handleDocumentCheck_docs, hdocs1]
  refine ⟨?_, ?_, ?_, ?_, ?_, ?_, ?_, ?_, ?_, ?_⟩
  · rw [hdocs1]
    exact updateDoc_target_fields s.docs docId v t1
  · rw [hdocs2, updateDoc_absorb]
    exact updateDoc_target_fields s.docs docId v t2
  · exact handleDocumentCheck_images _ docId v t2
  · rw [hdocs2, hdocs1, updateDoc_timestampOnly]
  · exact handleDocumentCheck_status _ docId v t2
  · exact (checkAndSet_preserves _ _ _).2.2.1
  · exact (checkAndSet_preserves _ _ _).2.2.2.1
  · exact (checkAndSet_preserves _ _ _).2.2.2.2.1
  · exact (checkAndSet_preserves _ _ _).2.2.2.2.2.1
  · exact (checkAndSet_preserves _ _ _).2.2.2.2.2.2

/-- Witness for the amended toggle theorem at a concrete state: the second
toggle leaves the image list unchanged. -/
theorem toggleTwiceWitness :
    (handleDocumentCheck (handleDocumentCheck sampleUnchecked 0 true 5) 0 true 9).images =
      (handleDocumentCheck sampleUnchecked 0 true 5).images :=
  (toggleTwiceTimestampAndStaleStatus sampleUnchecked 0 true 5 9).2.2.1

/-- C10.  The reviewer's grant/reject decision writes only the status
field — every other asset field, the documents and the images are
untouched — and no operation of the core ever writes verified_at. -/
theorem grantRejectWritesOnlyStatus :
    ∀ (s : DBState) (st : Status) (docId : Nat) (v : Bool) (now : Nat) (p : String)
      (lat lon : Option ℚ) (t : TransportOutcome) (geo : ℚ → ℚ → String)
      (sd : List RequiredDoc) (si : List String),
      (handleStatusUpdate s st).asset.status = st ∧
      (handleStatusUpdate s st).asset.image_url = s.asset.image_url ∧
      (handleStatusUpdate s st).asset.latitude = s.asset.latitude ∧
      (handleStatusUpdate s st).asset.longitude = s.asset.longitude ∧
      (handleStatusUpdate s st).asset.location_address = s.asset.location_address ∧
      (handleStatusUpdate s st).asset.verified_at = s.asset.verified_at ∧
      (handleStatusUpdate s st).docs = s.docs ∧
      (handleStatusUpdate s st).images = s.images ∧
      (handleDocumentCheck s docId v now).asset.verified_at = s.asset.verified_at ∧
      (handleDeleteImage s p).asset.verified_at = s.asset.verified_at ∧
      (uploadImageToSupabase s p lat lon t geo).asset.verified_at = s.asset.verified_at ∧
      (uploadImageToSupabaseV2 s p lat lon t geo).asset.verified_at = s.asset.verified_at ∧
      (checkAndSetPendingStatus sd si s).asset.verified_at = s.asset.verified_at := by
  intro s st docId v now p lat lon t geo sd si
  refine ⟨rfl, rfl, rfl, rfl, rfl, rfl, rfl, rfl, ?_, ?_, ?_, ?_,
    (checkAndSet_preserves sd si s).2.2.2.2.2.2⟩
  · exact (checkAndSet_preserves _ _ _).2.2.2.2.2.2
  · exact (checkAndSet_preserves _ _ _).2.2.2.2.2.2
  · unfold uploadImageToSupabase
    dsimp only
    split
    · rfl
    · exact (checkAndSet_preserves _ _ _).2.2.2.2.2.2
  · cases t with
    | fault => rfl
    | response ok j =>
        unfold uploadImageToSupabaseV2
        dsimp only
        split
        · rfl
        · split
          · rfl
          · exact (checkAndSet_preserves _ _ _).2.2.2.2.2.2

/-- C2 (code evaluated at the failing input).  Embedding latitude 0.01°
produces the rational triple [[0,1],[0,1],[3600,100]] (0 degrees,
0 minutes, 36.00 seconds), but the repository's extraction reads only
numerators and yields 3600/3600 = 1°, an error of 0.99°, far above the
claimed quantization tolerance of about 0.00001°. -/
theorem geotagRoundTripFailsAtHundredth :
    degToRationalArray (1 / 100) =
      { deg := (0, 1), min := (0, 1), sec := (3600, 100) } ∧
    galleryExtractLat (degToRationalArray (1 / 100)) (latRefOf (1 / 100)) = 1 ∧
    ¬ |galleryExtractLat (degToRationalArray (1 / 100)) (latRefOf (1 / 100)) - 1 / 100|
        ≤ 1 / 100000 := by
  have h1 : degToRationalArray (1 / 100) =
      { deg := (0, 1), min := (0, 1), sec := (3600, 100) } := by
    unfold degToRationalArray jsRound
    rw [show |(1 : ℚ) / 100| = 1 / 100 from abs_of_pos (by norm_num)]
    norm_num
  have href : latRefOf (1 / 100) = "N" := by
    unfold latRefOf
    norm_num
  have h2 : galleryExtractLat (degToRationalArray (1 / 100)) (latRefOf (1 / 100)) = 1 := by
    rw [h1, href]
    unfold galleryExtractLat galleryExtractMagnitude
    rw [if_neg (by decide : ¬ ("N" = "S"))]
    norm_num
  refine ⟨h1, h2, ?_⟩
  rw [h2, show (1 : ℚ) - 1 / 100 = 99 / 100 by norm_num,
    abs_of_pos (by norm_num : (0 : ℚ) < 99 / 100)]
  norm_num

/-- Rounding to the nearest integer by flooring after adding one half is
within one half of the input. -/
lemma jsRound_close (y : ℚ) : |(jsRound y : ℚ) - y| ≤ 1 / 2 := by
  unfold jsRound
  have h1 : (⌊y + 1 / 2⌋ : ℚ) ≤ y + 1 / 2 := Int.floor_le _
  have h2 : y + 1 / 2 - 1 < (⌊y + 1 / 2⌋ : ℚ) := Int.sub_one_lt_floor _
  rw [abs_le]
  constructor <;> linarith

/-- Algebraic core of the geotag round trip: if the seconds value is
within one half (of a hundredth of a second) of the exact remainder, the
reconstructed magnitude is within 1/720000 of the original. -/
lemma roundtrip_aux (a dq mq sq y mF : ℚ)
    (hmF : mF = (a - dq) * 60) (hy : y = (mF - mq) * 60 * 100)
    (hclose : |sq - y| ≤ 1 / 2) :
    |dq / 1 + mq / 1 / 60 + sq / 100 / 3600 - a| ≤ 1 / 720000 := by
  have key : dq / 1 + mq / 1 / 60 + sq / 100 / 3600 - a = (sq - y) / 360000 := by
    rw [hy, hmF]
    ring
  rw [key, abs_div, abs_of_pos (by norm_num : (0 : ℚ) < 360000)]
  rw [div_le_iff₀ (by norm_num : (0 : ℚ) < 360000)]
  calc |sq - y| ≤ 1 / 2 := hclose
    _ = 1 / 720000 * 360000 := by norm_num

/-- The inverse operation described by the specification — reading each
EXIF rational pair as numerator over denominator — recovers the embedded
coordinate magnitude to within 1/720000 of a degree, comfortably inside
the claimed 0.00001° tolerance.  The repository's extraction
(`galleryExtractMagnitude`) fails this bound because it ignores the
denominators. -/
theorem specInverseRoundTrip (x : ℚ) :
    |specRationalToDeg (degToRationalArray x) - (|x|)| ≤ 1 / 720000 := by
  unfold specRationalToDeg degToRationalArray
  dsimp only
  push_cast
  exact roundtrip_aux (|x|) ((⌊(|x|)⌋ : ℤ) : ℚ) ((⌊((|x|) - ((⌊(|x|)⌋ : ℤ) : ℚ)) * 60⌋ : ℤ) : ℚ)
    _ _ _ rfl rfl (jsRound_close _)

/-- C6 (counterexample).  The verify-then-store variant's inline decoding
does not accept the alternate field names: on a 200 response carrying
only `valid = true` and `score = 0.9` it reads realness as false and the
score as 0. -/
theorem altFieldsIgnoredByV2Decoding :
    isRealV2 altOnlyJson ≠ altOnlyJson.valid.getD false ∧
    scoreV2 altOnlyJson ≠ altOnlyJson.score.getD 0 := by
  constructor
  · decide
  · norm_num [scoreV2, altOnlyJson]

/-- C6 (amended).  The store-then-verify variant's `verifyImage` accepts
both the canonical names and the alternate names `valid`/`score`
(canonical taking precedence), while the verify-then-store variant's
inline decoding accepts only the canonical `is_real` (strict comparison
against true) and `authenticity_score` (defaulting to 0). -/
theorem tolerantVsStrictDecoding (b : Bool) (q : ℚ) (v : Option Bool) (sc : Option ℚ)
    (r m : Option String) :
    (decodeVerifierJson (altNamedJson b q r m)).is_real = b ∧
    (decodeVerifierJson (altNamedJson b q r m)).authenticity_score = q ∧
    (decodeVerifierJson (canonNamedJson b q v sc r m)).is_real = b ∧
    (decodeVerifierJson (canonNamedJson b q v sc r m)).authenticity_score = q ∧
    isRealV2 (canonNamedJson b q v sc r m) = b ∧
    isRealV2 (noCanonJson v sc r m) = false ∧
    scoreV2 (noCanonJson v sc r m) = 0 := by
  refine ⟨rfl, rfl, rfl, rfl, ?_, rfl, rfl⟩
  cases b <;> rfl

/-- In the single-actor reviewer flow, an open dialog's fetched snapshot
always matches the durable status. -/
lemma reviewer_dialog_matches_db {s : ReviewerState} (h : ReviewerReachable s) :
    ∀ st : Status, s.dialog = some st → s.db = st := by
  induction h with
  | init db =>
      intro st hst
      exact Option.noConfusion hst
  | step hr hs ih =>
      cases hs with
      | openDialog db dialog =>
          intro st hst
          injection hst
      | grant db =>
          intro st hst
          exact Option.noConfusion hst
      | reject db =>
          intro st hst
          exact Option.noConfusion hst
      | closeDialog db dialog =>
          intro st hst
          exact Option.noConfusion hst

/-- C7.  In every reachable execution of the reviewer flow, a step that
results in the authenticated status starts from pending (or was already
authenticated and did not move); in particular no step moves an asset
directly from non-verified to authenticated. -/
theorem grantOnlyFromPending (s s' : ReviewerState) (hr : ReviewerReachable s)
    (hs : ReviewerStep s s') :
    (s'.db = Status.authenticated → s.db = Status.authenticated ∨ s.db = Status.pending) ∧
    (s.db = Status.nonVerified → s'.db ≠ Status.authenticated) := by
  cases hs with
  | openDialog db dialog =>
      refine ⟨fun h => Or.inl h, fun h1 h2 => ?_⟩
      rw [show (⟨db, dialog⟩ : ReviewerState).db = db from rfl] at h1
      rw [show (⟨db, some db⟩ : ReviewerState).db = db from rfl, h1] at h2
      exact Status.noConfusion h2
  | grant db =>
      have hdb : db = Status.pending :=
        reviewer_dialog_matches_db hr Status.pending rfl
      refine ⟨fun _ => Or.inr hdb, fun h1 _ => ?_⟩
      rw [show (⟨db, some Status.pending⟩ : ReviewerState).db = db from rfl, hdb] at h1
      exact Status.noConfusion h1
  | reject db =>
      refine ⟨fun h => absurd h (by decide), fun _ h2 => absurd h2 (by decide)⟩
  | closeDialog db dialog =>
      refine ⟨fun h => Or.inl h, fun h1 h2 => ?_⟩
      rw [show (⟨db, dialog⟩ : ReviewerState).db = db from rfl] at h1
      rw [show (⟨db, none⟩ : ReviewerState).db = db from rfl, h1] at h2
      exact Status.noConfusion h2

/-- Witness for the reviewer-flow theorem: a concrete reachable state with
an open dialog over a pending asset, granted in one step. -/
theorem grantOnlyFromPendingWitness :
    (⟨Status.pending, some Status.pending⟩ : ReviewerState).db = Status.authenticated ∨
    (⟨Status.pending, some Status.pending⟩ : ReviewerState).db = Status.pending :=
  (grantOnlyFromPending ⟨Status.pending, some Status.pending⟩
      ⟨Status.authenticated, none⟩
      (ReviewerReachable.step (ReviewerReachable.init Status.pending)
        (ReviewerStep.openDialog Status.pending none))
      (ReviewerStep.grant Status.pending)).1 rfl

/-- C1 (amended).  After a checklist toggle, an image deletion, or an
accepted upload in either pipeline variant, the persisted status is set
to pending exactly when the reconciler guard (at least one required
document, all uploaded, image count at least document count) holds on
the pre-mutation snapshot — the component state as of the handler's
render — and otherwise keeps its previous value.  The operation's own
mutation is invisible to the guard, and no branch ever reverts a status,
so neither direction of the claimed fresh-state biconditional holds. -/
theorem statusReconcilerStaleGuard (s : DBState) (docId : Nat) (v : Bool) (now : Nat)
    (p : String) (lat lon : Option ℚ) (t : TransportOutcome) (j : VerifierJson)
    (geo : ℚ → ℚ → String)
    (hA : (verifyImage t).is_real = true) (hB : isRealV2 j = true) :
    (handleDocumentCheck s docId v now).asset.status =
      (if allUploadedFromState s.docs && enoughImagesFromState s.docs s.images
       then Status.pending else s.asset.status) ∧
    (handleDeleteImage s p).asset.status =
      (if allUploadedFromState s.docs && enoughImagesFromState s.docs s.images
       then Status.pending else s.asset.status) ∧
    (uploadImageToSupabase s p lat lon t geo).asset.status =
      (if allUploadedFromState s.docs && enoughImagesFromState s.docs s.images
       then Status.pending else s.asset.status) ∧
    (uploadImageToSupabaseV2 s p lat lon (TransportOutcome.response true j) geo).asset.status =
      (if allUploadedFromState s.docs && enoughImagesFromState s.docs s.images
       then Status.pending else s.asset.status) := by
  refine ⟨handleDocumentCheck_status s docId v now, ?_, ?_, ?_⟩
  · unfold handleDeleteImage
    rw [checkAndSet_status]
  · unfold uploadImageToSupabase
    dsimp only
    rw [if_neg (by simp [hA])]
    rw [checkAndSet_status]
  · unfold uploadImageToSupabaseV2
    dsimp only
    rw [if_neg (by decide : ¬ (true = false))]
    rw [if_neg (by simp [hB])]
    rw [checkAndSet_status]

/-- Witness for the amended reconciler theorem: toggling the sample
asset's single document (snapshot guard already satisfied) persists
pending. -/
theorem statusReconcilerStaleGuardWitness :
    (handleDocumentCheck sampleState 0 true 7).asset.status = Status.pending :=
  ((statusReconcilerStaleGuard sampleState 0 true 7 "b.jpg" none none
      (TransportOutcome.response true acceptJson) acceptJson
      (fun _ _ => "Unknown Location") (by decide) (by decide)).1).trans (by decide)

/-- C5.  A rejected upload leaves the durable state exactly as it was: the
store-then-verify variant removes the just-stored object again
(restoring the image list) and never touches the asset row, and the
verify-then-store variant returns before storing anything; moreover, for
any transport outcome, either all four preview fields (image_url,
latitude, longitude, location_address) are unchanged, or the gate
accepted and all four are written together. -/
theorem rejectedUploadLeavesStoreUnchanged (s : DBState) (p : String)
    (lat lon : Option ℚ) (t t2 : TransportOutcome) (geo : ℚ → ℚ → String)
    (hp : p ∉ s.images) (hrej : (verifyImage t).is_real = false) :
    uploadImageToSupabase s p lat lon t geo = s ∧
    (∀ j : VerifierJson, isRealV2 j = false →
      uploadImageToSupabaseV2 s p lat lon (TransportOutcome.response true j) geo = s) ∧
    (((uploadImageToSupabase s p lat lon t2 geo).asset.image_url = s.asset.image_url ∧
      (uploadImageToSupabase s p lat lon t2 geo).asset.latitude = s.asset.latitude ∧
      (uploadImageToSupabase s p lat lon t2 geo).asset.longitude = s.asset.longitude ∧
      (uploadImageToSupabase s p lat lon t2 geo).asset.location_address =
        s.asset.location_address) ∨
     ((verifyImage t2).is_real = true ∧
      (uploadImageToSupabase s p lat lon t2 geo).asset.image_url = some (publicUrlOf p) ∧
      (uploadImageToSupabase s p lat lon t2 geo).asset.latitude = lat ∧
      (uploadImageToSupabase s p lat lon t2 geo).asset.longitude = lon ∧
      (uploadImageToSupabase s p lat lon t2 geo).asset.location_address =
        resolvedAddress geo lat lon)) ∧
    (((uploadImageToSupabaseV2 s p lat lon t2 geo).asset.image_url = s.asset.image_url ∧
      (uploadImageToSupabaseV2 s p lat lon t2 geo).asset.latitude = s.asset.latitude ∧
      (uploadImageToSupabaseV2 s p lat lon t2 geo).asset.longitude = s.asset.longitude ∧
      (uploadImageToSupabaseV2 s p lat lon t2 geo).asset.location_address =
        s.asset.location_address) ∨
     ((∃ j2 : VerifierJson, t2 = TransportOutcome.response true j2 ∧ isRealV2 j2 = true) ∧
      (uploadImageToSupabaseV2 s p lat lon t2 geo).asset.image_url = some (publicUrlOf p) ∧
      (uploadImageToSupabaseV2 s p lat lon t2 geo).asset.latitude = lat ∧
      (uploadImageToSupabaseV2 s p lat lon t2 geo).asset.longitude = lon ∧
      (uploadImageToSupabaseV2 s p lat lon t2 geo).asset.location_address =
        resolvedAddress geo lat lon)) := by
  have him : (s.images ++ [p]).erase p = s.images := by
    rw [List.erase_append_right _ hp, List.erase_cons_head, List.append_nil]
  have hArej : ∀ t' : TransportOutcome, (verifyImage t').is_real = false →
      uploadImageToSupabase s p lat lon t' geo = s := by
    intro t' h
    unfold uploadImageToSupabase
    dsimp only
    rw [if_pos h]
    show { s with images := (s.images ++ [p]).erase p } = s
    rw [him]
  refine ⟨hArej t hrej, ?_, ?_, ?_⟩
  · intro j hj
    unfold uploadImageToSupabaseV2
    dsimp only
    rw [if_neg (by decide : ¬ (true = false)), if_pos hj]
  · by_cases hr : (verifyImage t2).is_real = true
    · refine Or.inr ⟨hr, ?_, ?_, ?_, ?_⟩ <;>
        · unfold uploadImageToSupabase
          dsimp only
          rw [if_neg (by simp [hr])]
          first
            | exact (checkAndSet_preserves _ _ _).2.2.1
            | exact (checkAndSet_preserves _ _ _).2.2.2.1
            | exact (checkAndSet_preserves _ _ _).2.2.2.2.1
            | exact (checkAndSet_preserves _ _ _).2.2.2.2.2.1
    · have hr' : (verifyImage t2).is_real = false := by
        cases h2 : (verifyImage t2).is_real with
        | false => rfl
        | true => exact absurd h2 hr
      rw [hArej t2 hr']
      exact Or.inl ⟨rfl, rfl, rfl, rfl⟩
  · cases t2 with
    | fault => exact Or.inl ⟨rfl, rfl, rfl, rfl⟩
    | response ok j2 =>
        cases ok with
        | false => exact Or.inl ⟨rfl, rfl, rfl, rfl⟩
        | true =>
            by_cases hr : isRealV2 j2 = true
            · refine Or.inr ⟨⟨j2, rfl, hr⟩, ?_, ?_, ?_, ?_⟩ <;>
                · unfold uploadImageToSupabaseV2
                  dsimp only
                  rw [if_neg (by decide : ¬ (true = false)), if_neg (by simp [hr])]
                  first
                    | exact (checkAndSet_preserves _ _ _).2.2.1
                    | exact (checkAndSet_preserves _ _ _).2.2.2.1
                    | exact (checkAndSet_preserves _ _ _).2.2.2.2.1
                    | exact (checkAndSet_preserves _ _ _).2.2.2.2.2.1
            · have hr' : isRealV2 j2 = false := by
                cases h2 : isRealV2 j2 with
                | false => rfl
                | true => exact absurd h2 hr
              have heq : uploadImageToSupabaseV2 s p lat lon
                  (TransportOutcome.response true j2) geo = s := by
                unfold uploadImageToSupabaseV2
                dsimp only
                rw [if_neg (by decide : ¬ (true = false)), if_pos hr']
              rw [heq]
              exact Or.inl ⟨rfl, rfl, rfl, rfl⟩

/-- Witness for the rejected-upload theorem: Scenario D's rejecting
response (score 0.2) leaves the sample state exactly unchanged. -/
theorem rejectedUploadWitness :
    uploadImageToSupabase sampleState "b.jpg" none none
      (TransportOutcome.response true rejectJson) (fun _ _ => "Unknown Location") =
      sampleState :=
  (rejectedUploadLeavesStoreUnchanged sampleState "b.jpg" none none
      (TransportOutcome.response true rejectJson) TransportOutcome.fault
      (fun _ _ => "Unknown Location") (by decide) (by decide)).1

end AuthenX
